import Mathlib

/-!
Shallow embedding of `googlecloudsdk/command_lib/run/messages_util.py` and of
the command-group declaration in
`lib/surface/compute/target_https_proxies/__init__.py`.

Modelling conventions:
* Python `str` is `String`; Python string truthiness is `s ≠ ""`.
* Python `int` percentages are `Nat`; numeric truthiness is `n ≠ 0`.
* Python `None`-able strings (`release_track.prefix`, a condition
  record read with `.get` at key `message`) are `Option String`; interpolating `None` with
  `str.format` renders the text `None` (`pyStrOfOpt`).
* Python dicts read by this code are association lists with first-match
  lookup (`pyDictLookup`); `k in d` is `(pyDictLookup d k).isSome` and
  `d[k]` is modelled in `Except` so that a `KeyError` is an observable
  failure (`pyDictIndex`).
* `str.format` applied to a literal template is transliterated as the
  concatenation of the template fragments with the interpolated fields,
  in template order; `{{bold}}` / `{{reset}}` render as the literal text
  `{bold}` / `{reset}`.
* `conn_context.location_label` is appended to the template before the
  `format` call; it is modelled as an opaque placeholder-free string.
-/

/-- Result of `str(x)` on an optional string: Python renders `None` as the
four-character text `None`. -/
def pyStrOfOpt : Option String → String
  | some s => s
  | none => "None"

/-- First-match lookup in an association-list model of a Python dict. -/
def pyDictLookup {α : Type} (d : List (String × α)) (k : String) : Option α :=
  (d.find? (fun kv => kv.1 == k)).map Prod.snd

/-- Python `k in d` on a dict: key membership. -/
def pyDictContains {α : Type} (d : List (String × α)) (k : String) : Bool :=
  (pyDictLookup d k).isSome

/-- Python `d[k]`: raises `KeyError` when the key is absent. -/
def pyDictIndex {α : Type} (d : List (String × α)) (k : String) : Except String α :=
  match pyDictLookup d k with
  | some v => Except.ok v
  | none => Except.error ("KeyError: " ++ k)

/-- Python `repr` of a string (no embedded quote characters assumed). -/
def pyReprStr (s : String) : String :=
  String.singleton (Char.ofNat 39) ++ s ++ String.singleton (Char.ofNat 39)

/-- Python `str` of a list of strings, as produced by formatting the
`regions` argument into the header template. -/
def pyStrOfList (l : List String) : String :=
  "[" ++ String.intercalate ", " (l.map pyReprStr) ++ "]"

/-- A condition detail record: a Python dict from field names (such as
`message`) to strings. -/
abbrev CondRecord : Type := List (String × String)

/-- Embeds `service.status`: the revision bookkeeping sub-record. -/
structure ServiceStatus where
  latestReadyRevisionName : String
  latestCreatedRevisionName : String
deriving Repr, DecidableEq

/-- The fields of `googlecloudsdk.api_lib.run.service.Service` read by
`messages_util.py`. `conditions` is the dict from condition names to
condition detail records. -/
structure Service where
  name : String
  status : ServiceStatus
  latest_percent_traffic : Nat
  latest_url : String
  domain : String
  conditions : List (String × CondRecord)
deriving Repr, DecidableEq

/-- Header of the multi-region success message, from the literal template
whose doubled braces render as the markup tokens and whose fields are the
service name and the region list. -/
def multiRegionHeader (service : Service) (regions : List String) : String :=
  "Multi-Region Service [{bold}" ++ service.name ++
    "{reset}] has been deployed to regions {bold}" ++ pyStrOfList regions ++
    "{reset}.\nRegional URLs:"

/-- One iteration of the region loop in
`GetSuccessMessageForMultiRegionSynchronousDeploy`: guarded dict indexing,
then the per-region line. -/
def multiRegionLineE (conditions : List (String × CondRecord)) (region : String) :
    Except String String := do
  let condition := "MultiRegionReady/" ++ region
  let url ←
    if pyDictContains conditions condition then
      (pyDictIndex conditions condition).map (fun c => pyStrOfOpt (pyDictLookup c "message"))
    else Except.ok ""
  Except.ok ("\n{bold}" ++ url ++ "{reset} ({bold}" ++ region ++ "{reset})")

/-- The `for region in regions` accumulation loop of
`GetSuccessMessageForMultiRegionSynchronousDeploy`. -/
def multiRegionLoop (conditions : List (String × CondRecord)) :
    List String → String → Except String String
  | [], msg => Except.ok msg
  | region :: rest, msg => do
      let line ← multiRegionLineE conditions region
      multiRegionLoop conditions rest (msg ++ line)

/-- Embeds `GetSuccessMessageForMultiRegionSynchronousDeploy(service,
regions)`. The result is in `Except` so that a `KeyError` from dict
indexing would be visible as an `error`. -/
def GetSuccessMessageForMultiRegionSynchronousDeploy (service : Service)
    (regions : List String) : Except String String :=
  multiRegionLoop service.conditions regions (multiRegionHeader service regions)

/-- Embeds `GetSuccessMessageForSynchronousDeploy(service, no_traffic)`. -/
def GetSuccessMessageForSynchronousDeploy (service : Service) (no_traffic : Bool) :
    String :=
  let latest_ready := service.status.latestReadyRevisionName
  let latest_created := service.status.latestCreatedRevisionName
  let latest_percent_traffic := if no_traffic then 0 else service.latest_percent_traffic
  let msg :=
    "Service [{bold}" ++ service.name ++ "{reset}] revision [{bold}" ++
      (if no_traffic then latest_created else latest_ready) ++
      "{reset}] has been deployed and is serving {bold}" ++
      toString latest_percent_traffic ++ "{reset} percent of traffic."
  let msg :=
    if latest_percent_traffic ≠ 0 then
      msg ++ "\nService URL: {bold}" ++ service.domain ++ "{reset}"
    else msg
  let latest_url := service.latest_url
  let tag_url_message :=
    if latest_url ≠ "" then
      "\nThe revision can be reached directly at " ++ latest_url
    else ""
  msg ++ tag_url_message

/-- The fields of a resource reference read by this module:
`resource_ref.Name()`, `resource_ref.Parent().Name()` and
`resource_ref.projectsId`. -/
structure ResourceRef where
  name : String
  parentName : String
  projectsId : String
deriving Repr, DecidableEq

/-- The fields of `connection_context.ConnectionInfo` read by this module. -/
structure ConnContext where
  operator : String
  ns_label : String
  location_label : String
  region : String
deriving Repr, DecidableEq

/-- Embeds `GetStartDeployMessage(conn_context, resource_ref, operation,
resource_kind_lower)`. -/
def GetStartDeployMessage (conn_context : ConnContext) (resource_ref : ResourceRef)
    (operation : String := "Deploying container to")
    (resource_kind_lower : String := "service") : String :=
  let ns :=
    if resource_kind_lower == "worker pool" then resource_ref.projectsId
    else resource_ref.parentName
  operation ++ " " ++ conn_context.operator ++ " " ++ resource_kind_lower ++
    " [{bold}" ++ resource_ref.name ++ "{reset}] in " ++ conn_context.ns_label ++
    " [{bold}" ++ ns ++ "{reset}]" ++ conn_context.location_label

/-- The fixed message shape shared by both branches of
`GetStartDeployMessage`, abstracted over the parent identifier `ns`. -/
def startDeployRendered (conn_context : ConnContext) (resource_ref : ResourceRef)
    (operation resource_kind_lower ns : String) : String :=
  operation ++ " " ++ conn_context.operator ++ " " ++ resource_kind_lower ++
    " [{bold}" ++ resource_ref.name ++ "{reset}] in " ++ conn_context.ns_label ++
    " [{bold}" ++ ns ++ "{reset}]" ++ conn_context.location_label

/-- Embeds `GetNotFoundMessage(conn_context, resource_ref, resource_kind)`. -/
def GetNotFoundMessage (conn_context : ConnContext) (resource_ref : ResourceRef)
    (resource_kind : String := "Service") : String :=
  resource_kind ++ " [" ++ resource_ref.name ++ "] could not be found in " ++
    conn_context.ns_label ++ " [" ++ resource_ref.parentName ++ "] region [" ++
    conn_context.region ++ "]."

/-- A release-track descriptor; `trackPrefix` models `release_track.prefix`,
which is either a string or Python `None`. -/
structure ReleaseTrack where
  trackPrefix : Option String
deriving Repr, DecidableEq

/-- The conditional insert shared by `GetRunJobMessage` and
`GetExecutionCreatedMessage`: a space followed by `release_track.prefix`
when that attribute is not `None`, the empty string when it is `None`. -/
def releaseTrackInsert (release_track : ReleaseTrack) : String :=
  match release_track.trackPrefix with
  | some p => " " ++ p
  | none => ""

/-- Embeds `GetRunJobMessage(release_track, job_name, repeat)` (`rep`
stands for the Python parameter `repeat`, a Lean keyword). -/
def GetRunJobMessage (release_track : ReleaseTrack) (job_name : String)
    (rep : Bool := false) : String :=
  "\nTo execute this job" ++ (if rep then " again" else "") ++ ", use:\ngcloud" ++
    releaseTrackInsert release_track ++ " run jobs execute " ++ job_name

/-- Embeds `execution.status`: optional record holding `logUri` (a
possibly empty string; `""` also models a falsy `None` URI). -/
structure ExecStatus where
  logUri : String
deriving Repr, DecidableEq

/-- The fields of an execution record read by this module. `status` is
`none` when `execution.status` is Python `None`. -/
structure Execution where
  name : String
  region : String
  namespaceVal : String
  status : Option ExecStatus
deriving Repr, DecidableEq

/-- Embeds `_GetExecutionUiLink(execution)` (leading underscore dropped). -/
def GetExecutionUiLink (execution : Execution) : String :=
  "https://console.cloud.google.com/run/jobs/executions/details/" ++
    execution.region ++ "/" ++ execution.name ++ "/tasks?project=" ++
    execution.namespaceVal

/-- Truthiness of `execution.status and execution.status.logUri`. -/
def executionHasLogUri (execution : Execution) : Bool :=
  match execution.status with
  | some st => st.logUri ≠ ""
  | none => false

/-- Embeds `GetExecutionCreatedMessage(release_track, execution)`. -/
def GetExecutionCreatedMessage (release_track : ReleaseTrack)
    (execution : Execution) : String :=
  let msg :=
    "\nView details about this execution by running:\ngcloud" ++
      releaseTrackInsert release_track ++ " run jobs executions describe " ++
      execution.name
  if executionHasLogUri execution then
    msg ++ "\n\nOr visit " ++ GetExecutionUiLink execution
  else msg

/-- Embeds `GetBuildEquivalentForSourceRunMessage(name, pack, source,
subgroup)`. The `pack` argument is the list of pack arguments; Python
truthiness of a list is non-emptiness. -/
def GetBuildEquivalentForSourceRunMessage (name : String) (pack : List String)
    (source : String) (subgroup : String := "") : String :=
  let build_flag := if pack ≠ [] then "--pack image=[IMAGE]" else "--tag [IMAGE]"
  "This command is equivalent to running `gcloud builds submit " ++ build_flag ++
    " " ++ source ++ "` and `gcloud run " ++ subgroup ++ "deploy " ++ name ++
    " --image [IMAGE]`\n"

/-- Release-track availability surfaces named in
`@base.ReleaseTracks(...)`. -/
inductive ReleaseTrackKind
  | ALPHA
  | BETA
  | GA
deriving Repr, DecidableEq

/-- The metadata a `base.Group` command-group declaration carries: supported
release tracks, display category, and detailed help text. -/
structure CommandGroup where
  releaseTracks : List ReleaseTrackKind
  category : String
  detailedHelpDescription : String
deriving Repr, DecidableEq

/-- Embeds `base.NETWORKING_CATEGORY` (an opaque category tag). -/
def NETWORKING_CATEGORY : String := "NETWORKING"

/-- The `TargetHTTPSProxies` command group declared in
`surface/compute/target_https_proxies/__init__.py`: a static value, with its
docstring elided to its first sentence. -/
def TargetHTTPSProxies : CommandGroup :=
  { releaseTracks := [ReleaseTrackKind.ALPHA, ReleaseTrackKind.BETA, ReleaseTrackKind.GA]
    category := NETWORKING_CATEGORY
    detailedHelpDescription := "List, create, and delete target HTTPS proxies." }

/-- The URL substituted for a region: the `message` field of the
`MultiRegionReady/<region>` condition when that condition is present, the
empty string otherwise. -/
def regionUrl (conditions : List (String × CondRecord)) (region : String) : String :=
  match pyDictLookup conditions ("MultiRegionReady/" ++ region) with
  | some c => pyStrOfOpt (pyDictLookup c "message")
  | none => ""

/-- The line appended for one region. -/
def regionLine (conditions : List (String × CondRecord)) (region : String) : String :=
  "\n{bold}" ++ regionUrl conditions region ++ "{reset} ({bold}" ++ region ++ "{reset})"

/-- Concatenation of a list of line fragments. -/
def joinLines : List String → String
  | [] => ""
  | s :: rest => s ++ joinLines rest

/-- Fixed part of the single-region success message (before the optional
URL lines). -/
def successBase (service : Service) (no_traffic : Bool) : String :=
  "Service [{bold}" ++ service.name ++ "{reset}] revision [{bold}" ++
    (if no_traffic then service.status.latestCreatedRevisionName
     else service.status.latestReadyRevisionName) ++
    "{reset}] has been deployed and is serving {bold}" ++
    toString (if no_traffic then 0 else service.latest_percent_traffic) ++
    "{reset} percent of traffic."

/-- The optional `Service URL` line. -/
def serviceUrlLine (service : Service) : String :=
  "\nService URL: {bold}" ++ service.domain ++ "{reset}"

/-- The optional direct-URL line. -/
def directUrlLine (service : Service) : String :=
  "\nThe revision can be reached directly at " ++ service.latest_url

section Lemmas

theorem multiRegionLineE_eq (conditions : List (String × CondRecord)) (region : String) :
    multiRegionLineE conditions region = Except.ok (regionLine conditions region) := by
  unfold multiRegionLineE regionLine regionUrl pyDictContains pyDictIndex
  cases h : pyDictLookup conditions ("MultiRegionReady/" ++ region) <;>
    simp [h, Except.map, bind, Except.bind]

theorem multiRegionLoop_eq (conditions : List (String × CondRecord))
    (regions : List String) : ∀ msg : String,
    multiRegionLoop conditions regions msg =
      Except.ok (msg ++ joinLines (regions.map (regionLine conditions))) := by
  induction regions with
  | nil => intro msg; simp [multiRegionLoop, joinLines, String.append_empty]
  | cons r rest ih =>
      intro msg
      simp only [multiRegionLoop, multiRegionLineE_eq, bind, Except.bind, List.map,
        joinLines, ih]
      rw [String.append_assoc]

theorem multiRegion_closed (service : Service) (regions : List String) :
    GetSuccessMessageForMultiRegionSynchronousDeploy service regions =
      Except.ok (multiRegionHeader service regions ++
        joinLines (regions.map (regionLine service.conditions))) := by
  unfold GetSuccessMessageForMultiRegionSynchronousDeploy
  exact multiRegionLoop_eq _ _ _

theorem syncDeploy_closed (service : Service) (no_traffic : Bool) :
    GetSuccessMessageForSynchronousDeploy service no_traffic =
      successBase service no_traffic ++
        (if (if no_traffic then 0 else service.latest_percent_traffic) ≠ 0 then
          serviceUrlLine service else "") ++
        (if service.latest_url ≠ "" then directUrlLine service else "") := by
  unfold GetSuccessMessageForSynchronousDeploy successBase serviceUrlLine directUrlLine
  cases no_traffic
  · by_cases hp : service.latest_percent_traffic ≠ 0 <;>
      by_cases hu : service.latest_url ≠ "" <;>
      simp [hp, hu, String.append_assoc, String.append_empty, -String.reduceAppend]
  · by_cases hu : service.latest_url ≠ "" <;>
      simp [hu, String.append_assoc, String.append_empty, -String.reduceAppend]

end Lemmas

theorem toString_zero_nat : toString (0 : Nat) = "0" := rfl

/-- Execution of all message builders against a mutable world, to state the
frame property: one `get` models the Python attribute reads against the
current heap, and no write ever occurs. -/
structure World where
  service : Service
  conn_context : ConnContext
  resource_ref : ResourceRef
  release_track : ReleaseTrack
  execution : Execution
deriving Repr, DecidableEq

/-- Runs `GetSuccessMessageForMultiRegionSynchronousDeploy` reading its
service from the world. -/
def GetSuccessMessageForMultiRegionSynchronousDeployM (regions : List String) :
    StateM World (Except String String) := do
  let w ← get
  pure (GetSuccessMessageForMultiRegionSynchronousDeploy w.service regions)

/-- Runs `GetSuccessMessageForSynchronousDeploy` reading its service from
the world. -/
def GetSuccessMessageForSynchronousDeployM (no_traffic : Bool) :
    StateM World String := do
  let w ← get
  pure (GetSuccessMessageForSynchronousDeploy w.service no_traffic)

/-- Runs `GetStartDeployMessage` reading its context and reference from
the world. -/
def GetStartDeployMessageM (operation resource_kind_lower : String) :
    StateM World String := do
  let w ← get
  pure (GetStartDeployMessage w.conn_context w.resource_ref operation resource_kind_lower)

/-- Runs `GetNotFoundMessage` reading its context and reference from the
world. -/
def GetNotFoundMessageM (resource_kind : String) : StateM World String := do
  let w ← get
  pure (GetNotFoundMessage w.conn_context w.resource_ref resource_kind)

/-- Runs `GetRunJobMessage` reading its release track from the world. -/
def GetRunJobMessageM (job_name : String) (rep : Bool) : StateM World String := do
  let w ← get
  pure (GetRunJobMessage w.release_track job_name rep)

/-- Runs `GetExecutionCreatedMessage` reading its release track and
execution from the world. -/
def GetExecutionCreatedMessageM : StateM World String := do
  let w ← get
  pure (GetExecutionCreatedMessage w.release_track w.execution)

/-- Runs `GetBuildEquivalentForSourceRunMessage` (it reads no shared
object, but is run against the world for uniformity). -/
def GetBuildEquivalentForSourceRunMessageM (name : String) (pack : List String)
    (source subgroup : String) : StateM World String := do
  pure (GetBuildEquivalentForSourceRunMessage name pack source subgroup)

/-- Concrete service used to instantiate hypotheses: one region condition
present, one absent. -/
def serviceEast : Service :=
  { name := "frontend"
    status := { latestReadyRevisionName := "frontend-00007"
                latestCreatedRevisionName := "frontend-00008" }
    latest_percent_traffic := 50
    latest_url := "https://latest---frontend.a.run.app"
    domain := "https://frontend.a.run.app"
    conditions := [("MultiRegionReady/us-east1", [("message", "https://east.run.app")])] }

/-- Concrete service with an empty condition mapping. -/
def serviceBare : Service :=
  { name := "backend"
    status := { latestReadyRevisionName := "backend-00001"
                latestCreatedRevisionName := "backend-00002" }
    latest_percent_traffic := 0
    latest_url := ""
    domain := ""
    conditions := [] }

/-- Concrete connection context. -/
def connCtx : ConnContext :=
  { operator := "Google Cloud Run"
    ns_label := "project"
    location_label := " region [{bold}us-central1{reset}]"
    region := "us-central1" }

/-- Concrete resource reference. -/
def resRef : ResourceRef :=
  { name := "my-service"
    parentName := "my-project"
    projectsId := "my-project-id" }

/-- Concrete execution with a log URI. -/
def execLogged : Execution :=
  { name := "job1-abc"
    region := "us-central1"
    namespaceVal := "my-project"
    status := some { logUri := "https://logs.example" } }

/-- C1: with `no_traffic=True`, `GetSuccessMessageForSynchronousDeploy`
reports `status.latestCreatedRevisionName` (not `latestReadyRevisionName`)
and a traffic percentage of `0` regardless of `latest_percent_traffic`;
with `no_traffic=False` it reports `latestReadyRevisionName` and the
record field `latest_percent_traffic`. -/
theorem C1_sync_deploy_revision_and_traffic (service : Service) :
    (GetSuccessMessageForSynchronousDeploy service true =
      "Service [{bold}" ++ service.name ++ "{reset}] revision [{bold}" ++
        service.status.latestCreatedRevisionName ++
        "{reset}] has been deployed and is serving {bold}" ++ "0" ++
        "{reset} percent of traffic." ++
        (if service.latest_url ≠ "" then directUrlLine service else "")) ∧
    (GetSuccessMessageForSynchronousDeploy service false =
      "Service [{bold}" ++ service.name ++ "{reset}] revision [{bold}" ++
        service.status.latestReadyRevisionName ++
        "{reset}] has been deployed and is serving {bold}" ++
        toString service.latest_percent_traffic ++ "{reset} percent of traffic." ++
        (if service.latest_percent_traffic ≠ 0 then serviceUrlLine service else "") ++
        (if service.latest_url ≠ "" then directUrlLine service else "")) := by
  constructor
  · by_cases hu : service.latest_url ≠ "" <;>
      simp [GetSuccessMessageForSynchronousDeploy, directUrlLine, toString_zero_nat,
        hu, String.append_assoc, String.append_empty, -String.reduceAppend]
  · by_cases hp : service.latest_percent_traffic ≠ 0 <;>
      by_cases hu : service.latest_url ≠ "" <;>
      simp [GetSuccessMessageForSynchronousDeploy, directUrlLine, serviceUrlLine,
        hp, hu, String.append_assoc, String.append_empty, -String.reduceAppend]

/-- C2: the multi-region success message is the header followed by exactly
one line per input region, in input order; the URL of a region is the `message`
field of the `MultiRegionReady/<region>` condition when that key is present
in the condition mapping. -/
theorem C2_multi_region_lines (service : Service) (regions : List String) :
    (GetSuccessMessageForMultiRegionSynchronousDeploy service regions =
      Except.ok (multiRegionHeader service regions ++
        joinLines (regions.map (regionLine service.conditions)))) ∧
    (∀ region c,
      pyDictLookup service.conditions ("MultiRegionReady/" ++ region) = some c →
      regionLine service.conditions region =
        "\n{bold}" ++ pyStrOfOpt (pyDictLookup c "message") ++ "{reset} ({bold}" ++
          region ++ "{reset})") := by
  refine ⟨multiRegion_closed service regions, ?_⟩
  intro region c h
  simp [regionLine, regionUrl, h]

/-- C2 witness at a concrete service whose condition mapping has the key
`MultiRegionReady/us-east1`. -/
theorem C2_multi_region_lines_witness :
    regionLine serviceEast.conditions "us-east1" =
      "\n{bold}" ++
        pyStrOfOpt (pyDictLookup [("message", "https://east.run.app")] "message") ++
        "{reset} ({bold}" ++ "us-east1" ++ "{reset})" :=
  (C2_multi_region_lines serviceEast ["us-east1", "us-west1"]).2 "us-east1"
    [("message", "https://east.run.app")] (by decide)

/-- C3: the single-region success message appends the `Service URL` line
exactly when the effective traffic percentage (0 under `no_traffic`, else
`latest_percent_traffic`) is non-zero, and appends the direct-URL line
exactly when `latest_url` is non-empty. -/
theorem C3_sync_deploy_optional_lines (service : Service) (no_traffic : Bool) :
    GetSuccessMessageForSynchronousDeploy service no_traffic =
      successBase service no_traffic ++
        (if (if no_traffic then 0 else service.latest_percent_traffic) ≠ 0 then
          serviceUrlLine service else "") ++
        (if service.latest_url ≠ "" then directUrlLine service else "") :=
  syncDeploy_closed service no_traffic

/-- C4: `GetRunJobMessage` puts a single space between `gcloud` and the
release-track prefix exactly when a prefix is present (with no prefix,
`gcloud` is immediately followed by ` run`), and appends ` again` after
`To execute this job` exactly when `repeat=True`. -/
theorem C4_run_job_message (release_track : ReleaseTrack) (job_name : String)
    (rep : Bool) :
    (∀ p, release_track.trackPrefix = some p →
      GetRunJobMessage release_track job_name rep =
        "\nTo execute this job" ++ (if rep then " again" else "") ++
          ", use:\ngcloud" ++ " " ++ p ++ " run jobs execute " ++ job_name) ∧
    (release_track.trackPrefix = none →
      GetRunJobMessage release_track job_name rep =
        "\nTo execute this job" ++ (if rep then " again" else "") ++
          ", use:\ngcloud" ++ " run jobs execute " ++ job_name) := by
  constructor
  · intro p h
    simp [GetRunJobMessage, releaseTrackInsert, h, String.append_assoc,
      -String.reduceAppend]
  · intro h
    simp [GetRunJobMessage, releaseTrackInsert, h, String.append_assoc,
      -String.reduceAppend]

/-- C4 witness at the concrete prefix `beta`, job `job1`, `repeat=True`. -/
theorem C4_run_job_message_witness :
    GetRunJobMessage ⟨some "beta"⟩ "job1" true =
      "\nTo execute this job" ++ (if true then " again" else "") ++
        ", use:\ngcloud" ++ " " ++ "beta" ++ " run jobs execute " ++ "job1" :=
  (C4_run_job_message ⟨some "beta"⟩ "job1" true).1 "beta" rfl

/-- C5: `GetStartDeployMessage` shows `resource_ref.projectsId` as the
parent identifier when the resource kind is `worker pool`, and
`resource_ref.Parent().Name()` for every other kind; apart from that
identifier both cases render the same message shape. -/
theorem C5_start_deploy_parent_choice (conn_context : ConnContext)
    (resource_ref : ResourceRef) (operation : String) :
    (GetStartDeployMessage conn_context resource_ref operation "worker pool" =
      startDeployRendered conn_context resource_ref operation "worker pool"
        resource_ref.projectsId) ∧
    (∀ resource_kind_lower, resource_kind_lower ≠ "worker pool" →
      GetStartDeployMessage conn_context resource_ref operation resource_kind_lower =
        startDeployRendered conn_context resource_ref operation resource_kind_lower
          resource_ref.parentName) := by
  constructor
  · simp [GetStartDeployMessage, startDeployRendered]
  · intro k hk
    simp [GetStartDeployMessage, startDeployRendered, hk]

/-- C5 witness at the concrete kind `service`. -/
theorem C5_start_deploy_parent_choice_witness :
    GetStartDeployMessage connCtx resRef "Deploying container to" "service" =
      startDeployRendered connCtx resRef "Deploying container to" "service"
        resRef.parentName :=
  (C5_start_deploy_parent_choice connCtx resRef "Deploying container to").2
    "service" (by decide)

/-- C7: `GetNotFoundMessage` always renders the fixed template
`<kind> [<name>] could not be found in <ns_label> [<ns>] region [<region>].`
with each field interpolated exactly once, for every input including empty
strings. -/
theorem C7_not_found_template (conn_context : ConnContext)
    (resource_ref : ResourceRef) (resource_kind : String) :
    GetNotFoundMessage conn_context resource_ref resource_kind =
      resource_kind ++ " [" ++ resource_ref.name ++ "] could not be found in " ++
        conn_context.ns_label ++ " [" ++ resource_ref.parentName ++ "] region [" ++
        conn_context.region ++ "]." := rfl

/-- C8: `GetBuildEquivalentForSourceRunMessage` uses the build flag
`--pack image=[IMAGE]` exactly when the pack argument list is truthy
(non-empty) and `--tag [IMAGE]` otherwise, and splices the subgroup token
verbatim immediately before `deploy`. -/
theorem C8_build_equivalent (name : String) (pack : List String)
    (source subgroup : String) :
    GetBuildEquivalentForSourceRunMessage name pack source subgroup =
      "This command is equivalent to running `gcloud builds submit " ++
        (if pack ≠ [] then "--pack image=[IMAGE]" else "--tag [IMAGE]") ++ " " ++
        source ++ "` and `gcloud run " ++ subgroup ++ "deploy " ++ name ++
        " --image [IMAGE]`\n" := rfl

/-- C6: when `MultiRegionReady/<region>` is absent from the condition
mapping, `GetSuccessMessageForMultiRegionSynchronousDeploy` still succeeds
(no `KeyError` is raised) and the URL substituted for that region is the
empty string. -/
theorem C6_missing_condition_degrades (service : Service) (regions : List String)
    (region : String)
    (habs : pyDictContains service.conditions ("MultiRegionReady/" ++ region) = false) :
    (∃ out, GetSuccessMessageForMultiRegionSynchronousDeploy service regions =
      Except.ok out) ∧
    regionUrl service.conditions region = "" := by
  refine ⟨⟨_, multiRegion_closed service regions⟩, ?_⟩
  unfold pyDictContains at habs
  unfold regionUrl
  cases h : pyDictLookup service.conditions ("MultiRegionReady/" ++ region) with
  | none => rfl
  | some c => rw [h] at habs; simp at habs

/-- C6 witness at a concrete service with an empty condition mapping. -/
theorem C6_missing_condition_degrades_witness :
    (∃ out, GetSuccessMessageForMultiRegionSynchronousDeploy serviceBare
      ["us-west1"] = Except.ok out) ∧
    regionUrl serviceBare.conditions "us-west1" = "" :=
  C6_missing_condition_degrades serviceBare ["us-west1"] "us-west1" (by decide)

/-- C9: every message builder, run against a mutable world holding all its
input objects, returns exactly the pure function of the current world
fields and leaves the world unchanged; the `TargetHTTPSProxies` command
group is a fixed static value. -/
theorem C9_side_effect_free (w : World) (no_traffic rep : Bool)
    (regions pack : List String)
    (operation resource_kind_lower resource_kind name source subgroup
      job_name : String) :
    ((GetSuccessMessageForMultiRegionSynchronousDeployM regions).run w =
      (GetSuccessMessageForMultiRegionSynchronousDeploy w.service regions, w)) ∧
    ((GetSuccessMessageForSynchronousDeployM no_traffic).run w =
      (GetSuccessMessageForSynchronousDeploy w.service no_traffic, w)) ∧
    ((GetStartDeployMessageM operation resource_kind_lower).run w =
      (GetStartDeployMessage w.conn_context w.resource_ref operation
        resource_kind_lower, w)) ∧
    ((GetNotFoundMessageM resource_kind).run w =
      (GetNotFoundMessage w.conn_context w.resource_ref resource_kind, w)) ∧
    ((GetRunJobMessageM job_name rep).run w =
      (GetRunJobMessage w.release_track job_name rep, w)) ∧
    (GetExecutionCreatedMessageM.run w =
      (GetExecutionCreatedMessage w.release_track w.execution, w)) ∧
    ((GetBuildEquivalentForSourceRunMessageM name pack source subgroup).run w =
      (GetBuildEquivalentForSourceRunMessage name pack source subgroup, w)) ∧
    TargetHTTPSProxies =
      { releaseTracks := [ReleaseTrackKind.ALPHA, ReleaseTrackKind.BETA,
          ReleaseTrackKind.GA]
        category := "NETWORKING"
        detailedHelpDescription := "List, create, and delete target HTTPS proxies." } :=
  ⟨rfl, rfl, rfl, rfl, rfl, rfl, rfl, rfl⟩

/-- C10: in both `GetRunJobMessage` and `GetExecutionCreatedMessage` the
space-plus-prefix is inserted after `gcloud` exactly when
`release_track.prefix` is not `None`; in particular, an empty-string prefix
still inserts the space, yielding `gcloud` followed by two spaces before
`run`. -/
theorem C10_empty_prefix_double_space (release_track : ReleaseTrack)
    (job_name : String) (rep : Bool) (execution : Execution) :
    (release_track.trackPrefix = none →
      GetRunJobMessage release_track job_name rep =
        "\nTo execute this job" ++ (if rep then " again" else "") ++
          ", use:\ngcloud" ++ " run jobs execute " ++ job_name ∧
      GetExecutionCreatedMessage release_track execution =
        "\nView details about this execution by running:\ngcloud" ++
          " run jobs executions describe " ++ execution.name ++
          (if executionHasLogUri execution then
            "\n\nOr visit " ++ GetExecutionUiLink execution else "")) ∧
    (∀ p, release_track.trackPrefix = some p →
      GetRunJobMessage release_track job_name rep =
        "\nTo execute this job" ++ (if rep then " again" else "") ++
          ", use:\ngcloud" ++ " " ++ p ++ " run jobs execute " ++ job_name ∧
      GetExecutionCreatedMessage release_track execution =
        "\nView details about this execution by running:\ngcloud" ++ " " ++ p ++
          " run jobs executions describe " ++ execution.name ++
          (if executionHasLogUri execution then
            "\n\nOr visit " ++ GetExecutionUiLink execution else "")) ∧
    (release_track.trackPrefix = some "" →
      GetRunJobMessage release_track job_name rep =
        "\nTo execute this job" ++ (if rep then " again" else "") ++
          ", use:\ngcloud  run jobs execute " ++ job_name ∧
      GetExecutionCreatedMessage release_track execution =
        "\nView details about this execution by running:\ngcloud  run jobs executions describe " ++
          execution.name ++
          (if executionHasLogUri execution then
            "\n\nOr visit " ++ GetExecutionUiLink execution else "")) := by
  refine ⟨?_, ?_, ?_⟩
  · intro h
    constructor
    · simp [GetRunJobMessage, releaseTrackInsert, h, String.append_assoc,
        -String.reduceAppend]
    · by_cases hl : executionHasLogUri execution <;>
        simp [GetExecutionCreatedMessage, releaseTrackInsert, h, hl,
          String.append_assoc, String.append_empty, -String.reduceAppend]
  · intro p h
    constructor
    · simp [GetRunJobMessage, releaseTrackInsert, h, String.append_assoc,
        -String.reduceAppend]
    · by_cases hl : executionHasLogUri execution <;>
        simp [GetExecutionCreatedMessage, releaseTrackInsert, h, hl,
          String.append_assoc, String.append_empty, -String.reduceAppend]
  · intro h
    constructor
    · simp [GetRunJobMessage, releaseTrackInsert, h, String.append_assoc,
        String.append_empty]
    · by_cases hl : executionHasLogUri execution <;>
        simp [GetExecutionCreatedMessage, releaseTrackInsert, h, hl,
          String.append_assoc, String.append_empty]

/-- C10 witness at the concrete empty-string prefix. -/
theorem C10_empty_prefix_double_space_witness :
    GetRunJobMessage ⟨some ""⟩ "job2" false =
      "\nTo execute this job" ++ (if false then " again" else "") ++
        ", use:\ngcloud  run jobs execute " ++ "job2" ∧
    GetExecutionCreatedMessage ⟨some ""⟩ execLogged =
      "\nView details about this execution by running:\ngcloud  run jobs executions describe " ++
        execLogged.name ++
        (if executionHasLogUri execLogged then
          "\n\nOr visit " ++ GetExecutionUiLink execLogged else "") :=
  (C10_empty_prefix_double_space ⟨some ""⟩ "job2" false execLogged).2.2 rfl
